import Mathlib

/-!
Verification of the finance-simulator repository.

This file gives a shallow embedding of the document model and the pure
aggregation functions of `src/app.py`, of the mutation handlers the claims
refer to, and of the persistence layer of `src/database.py` (the relational
store state, `save_data`, `load_data`, and `migrate_from_json`), and proves
the specification's claims about them.

Modelling conventions:
- monetary amounts (Python floats holding currency values) are rationals;
- dates are the `"YYYY-MM-DD"` strings the code stores;
- SQL `NULL` and an absent optional dictionary key are both `Option.none`;
- Python truthiness coercions (`x or 0`, `x or 14`, `if row[k]:`) are made
  explicit as `pyOrZero`, `pyOrFourteen`, `pyTruthyStr`.
-/

/-- One entry of `net_worth["savings_accounts"]`: `{"name": ..., "balance": ...}`. -/
structure SavingsAccount where
  name : String
  balance : ℚ
deriving DecidableEq

/-- The `net_worth` section of the document (`app.py` always normalizes
`savings_accounts` to the list shape; the legacy scalar fallback of
`calculate_total_savings` is unreachable for store-produced documents). -/
structure NetWorth where
  savings_accounts : List SavingsAccount
  investment_account : ℚ
  other_assets : ℚ
deriving DecidableEq

/-- The `income` section: `user_salary`, `partner_salary`, `salary_months`
(an SQL INTEGER, default 14). -/
structure Income where
  user_salary : ℚ
  partner_salary : ℚ
  salary_months : ℤ
deriving DecidableEq

/-- A fixed expense `{"name": ..., "amount": ...}`. -/
structure FixedExpense where
  name : String
  amount : ℚ
deriving DecidableEq

/-- A variable expense `{"name": ..., "amount": ..., "date": ...}`. -/
structure VariableExpense where
  name : String
  amount : ℚ
  date : String
deriving DecidableEq

/-- A one-time savings contribution `{"amount": ..., "date": ...}` with an
optional `"account"` key. -/
structure SavingsContribution where
  amount : ℚ
  date : String
  account : Option String
deriving DecidableEq

/-- A recurring monthly savings contribution `{"amount": ...}` with an
optional `"account"` key. -/
structure SavingsRecurring where
  amount : ℚ
  account : Option String
deriving DecidableEq

/-- A one-time investment contribution `{"amount": ..., "date": ...}`. -/
structure InvestmentContribution where
  amount : ℚ
  date : String
deriving DecidableEq

/-- A recurring monthly investment contribution `{"amount": ...}`. -/
structure InvestmentRecurring where
  amount : ℚ
deriving DecidableEq

/-- A transaction-log entry. `type` is `"expense"`, `"savings"` or
`"investment"`; `category`, `name` and `account` are optional keys. -/
structure Transaction where
  type : String
  category : Option String
  name : Option String
  amount : ℚ
  date : String
  account : Option String
deriving DecidableEq

/-- The in-memory financial document (the `data` dictionary of `app.py` /
the dictionary built by `database.load_data`). The `"current"` key the
default skeleton places inside `net_worth` is a constant 0 that nothing
reads or saves, so it is not modelled. -/
structure FinancialDocument where
  net_worth : NetWorth
  income : Income
  fixed_expenses : List FixedExpense
  variable_expenses : List VariableExpense
  savings_contributions : List SavingsContribution
  savings_recurring_monthly : List SavingsRecurring
  investment_contributions : List InvestmentContribution
  investment_recurring_monthly : List InvestmentRecurring
  transactions : List Transaction
deriving DecidableEq

/-! ## Aggregation functions (`app.py` lines 25-100, 130-138) -/

/-- `calculate_total_expenses`: sum of fixed plus sum of variable amounts. -/
def calculate_total_expenses (d : FinancialDocument) : ℚ :=
  (d.fixed_expenses.map (·.amount)).sum + (d.variable_expenses.map (·.amount)).sum

/-- `calculate_total_income`: user salary plus partner salary. -/
def calculate_total_income (d : FinancialDocument) : ℚ :=
  d.income.user_salary + d.income.partner_salary

/-- `calculate_yearly_income`: monthly income times `salary_months`. -/
def calculate_yearly_income (d : FinancialDocument) : ℚ :=
  calculate_total_income d * (d.income.salary_months : ℚ)

/-- `calculate_total_savings`: sum of balances over the savings-account
list (the document shape is always the list shape, so the dictionary
fallback branch of the Python function does not arise). -/
def calculate_total_savings (d : FinancialDocument) : ℚ :=
  (d.net_worth.savings_accounts.map (·.balance)).sum

/-- `calculate_current_net_worth`: savings + investment account + other assets. -/
def calculate_current_net_worth (d : FinancialDocument) : ℚ :=
  calculate_total_savings d + d.net_worth.investment_account + d.net_worth.other_assets

/-- Sum of `amount` over the recurring monthly savings contributions
(`sum(contrib.get("amount", 0) for contrib in data.get("savings_recurring_monthly", []))`). -/
def sumRecurringSavings (l : List SavingsRecurring) : ℚ :=
  (l.map (·.amount)).sum

/-- Sum of `amount` over the recurring monthly investment contributions. -/
def sumRecurringInvestment (l : List InvestmentRecurring) : ℚ :=
  (l.map (·.amount)).sum

/-- The dashboard's monthly surplus (`app.py` lines 130-138): income minus
expenses minus both recurring monthly contribution sums. -/
def monthly_surplus (d : FinancialDocument) : ℚ :=
  calculate_total_income d - calculate_total_expenses d
    - sumRecurringSavings d.savings_recurring_monthly
    - sumRecurringInvestment d.investment_recurring_monthly

/-- The result bundle returned by `simulate_year_end_networth`. -/
structure SimulationResult where
  years : ℕ
  current_networth : ℚ
  projected_networth : ℚ
  monthly_income : ℚ
  monthly_expenses : ℚ
  monthly_surplus : ℚ
  projected_savings : ℚ
  projected_investments : ℚ
deriving DecidableEq

/-- The fixed annualization constant of the simulator
(`CONTRIBUTION_MONTHS = 12`, independent of `salary_months`). -/
def CONTRIBUTION_MONTHS : ℚ := 12

/-- `simulate_year_end_networth` (`app.py` lines 58-100): the linear
no-interest projection. -/
def simulate_year_end_networth (d : FinancialDocument) (years : ℕ) : SimulationResult :=
  let monthly_income := calculate_total_income d
  let monthly_expenses := calculate_total_expenses d
  let monthly_savings_contribution := sumRecurringSavings d.savings_recurring_monthly
  let monthly_investment_contribution := sumRecurringInvestment d.investment_recurring_monthly
  let ms := monthly_income - monthly_expenses
    - monthly_savings_contribution - monthly_investment_contribution
  let current_networth := calculate_current_net_worth d
  let current_savings := calculate_total_savings d
  let current_investments := d.net_worth.investment_account
  let projected_savings :=
    current_savings + monthly_savings_contribution * CONTRIBUTION_MONTHS * (years : ℚ)
  let projected_investments :=
    current_investments + monthly_investment_contribution * CONTRIBUTION_MONTHS * (years : ℚ)
  let projected_networth :=
    current_networth + ms * CONTRIBUTION_MONTHS * (years : ℚ)
      + monthly_savings_contribution * CONTRIBUTION_MONTHS * (years : ℚ)
      + monthly_investment_contribution * CONTRIBUTION_MONTHS * (years : ℚ)
  ⟨years, current_networth, projected_networth, monthly_income, monthly_expenses,
    ms, projected_savings, projected_investments⟩

/-- Replace `data["income"]["salary_months"]` (the radio-button handler at
`app.py` line 207), leaving every other field alone. -/
def setSalaryMonths (d : FinancialDocument) (m : ℤ) : FinancialDocument :=
  { d with income := { d.income with salary_months := m } }

/-! ## Relational store (`database.py`)

Each table is a list of rows in insertion (autoincrement-id) order. The
`savings_accounts` column of `net_worth` is a JSON blob; since
`json.dumps`/`json.loads` round-trip the list of `{name, balance}` records
exactly (and `dumps` never yields a falsy string, so the `or "[]"` guard is
inert on saved rows), the blob is modelled as the list itself. -/

/-- A row of the `net_worth` table. -/
structure NetWorthRow where
  savings_accounts : List SavingsAccount
  investment_account : ℚ
  other_assets : ℚ
deriving DecidableEq

/-- A row of the `income` table. -/
structure IncomeRow where
  user_salary : ℚ
  partner_salary : ℚ
  salary_months : ℤ
deriving DecidableEq

/-- The relational store: one list of rows per managed table. The
collection-table rows have exactly the shape of the corresponding document
records, so the record structures double as row types. -/
structure DBState where
  net_worth : List NetWorthRow
  income : List IncomeRow
  fixed_expenses : List FixedExpense
  variable_expenses : List VariableExpense
  savings_contributions : List SavingsContribution
  savings_recurring_monthly : List SavingsRecurring
  investment_contributions : List InvestmentContribution
  investment_recurring_monthly : List InvestmentRecurring
  transactions : List Transaction
deriving DecidableEq

/-- `save_data` (`database.py` lines 339-441): delete every row of every
table, then insert the document's contents in iteration order. Because it
starts by clearing all tables, the resulting store does not depend on the
prior store state. -/
def save_data (d : FinancialDocument) : DBState where
  net_worth :=
    [⟨d.net_worth.savings_accounts, d.net_worth.investment_account, d.net_worth.other_assets⟩]
  income := [⟨d.income.user_salary, d.income.partner_salary, d.income.salary_months⟩]
  fixed_expenses := d.fixed_expenses
  variable_expenses := d.variable_expenses
  savings_contributions := d.savings_contributions
  savings_recurring_monthly := d.savings_recurring_monthly
  investment_contributions := d.investment_contributions
  investment_recurring_monthly := d.investment_recurring_monthly
  transactions := d.transactions

/-- Python `x or 0` on a numeric column value: 0 (and 0.0) are falsy. -/
def pyOrZero (x : ℚ) : ℚ := if x = 0 then 0 else x

/-- Python `row["salary_months"] or 14`: a stored 0 is falsy and becomes 14. -/
def pyOrFourteen (n : ℤ) : ℤ := if n = 0 then 14 else n

/-- Python `if row[k]: record[k] = row[k]` on an optional TEXT column:
`NULL` and the empty string are falsy, so both yield an absent key. -/
def pyTruthyStr (o : Option String) : Option String :=
  match o with
  | none => none
  | some s => if s = "" then none else some s

/-- `load_data` (`database.py` lines 231-337) as a pure function of the
store state: latest row of each singleton table (`ORDER BY id DESC LIMIT 1`
is the head of the reversed row list), all rows of each collection table in
insertion order, with the zero-valued defaults when a singleton row is
missing and with the truthiness coercions of the Python code. The
`init_database()` and `migrate_from_json()` calls at its head are
schema-idempotent respectively a no-op on any store holding an income row
(every store produced by `save_data` holds one), so they do not appear. -/
def load_data (db : DBState) : FinancialDocument where
  net_worth :=
    match db.net_worth.reverse.head? with
    | some row => ⟨row.savings_accounts, pyOrZero row.investment_account,
        pyOrZero row.other_assets⟩
    | none => ⟨[], 0, 0⟩
  income :=
    match db.income.reverse.head? with
    | some row => ⟨pyOrZero row.user_salary, pyOrZero row.partner_salary,
        pyOrFourteen row.salary_months⟩
    | none => ⟨0, 0, 14⟩
  fixed_expenses := db.fixed_expenses
  variable_expenses := db.variable_expenses
  savings_contributions :=
    db.savings_contributions.map fun c => ⟨c.amount, c.date, pyTruthyStr c.account⟩
  savings_recurring_monthly :=
    db.savings_recurring_monthly.map fun c => ⟨c.amount, pyTruthyStr c.account⟩
  investment_contributions := db.investment_contributions
  investment_recurring_monthly := db.investment_recurring_monthly
  transactions :=
    db.transactions.map fun t =>
      ⟨t.type, pyTruthyStr t.category, pyTruthyStr t.name, t.amount, t.date,
        pyTruthyStr t.account⟩

/-! ## Migration (`database.py` lines 122-229)

The system state seen by `migrate_from_json`: the parsed content of
`budget_data.json` when the file exists (`none` when absent), the content
of the `.backup` file, and the relational store. The legacy file is
modelled as its well-formed parsed document (missing keys take the same
defaults the `.get` calls supply, which the total record structure
subsumes); the `except` clause is not reached in this exception-free
model. -/
structure SysState where
  json_file : Option FinancialDocument
  backup_file : Option FinancialDocument
  db : DBState
deriving DecidableEq

/-- The insertion phase of the migration: append every field of the legacy
document to the corresponding table (the singleton tables receive one row
each; migration runs only when `income` is empty, but the other tables are
appended to as-is). -/
def insertLegacyDoc (j : FinancialDocument) (db : DBState) : DBState where
  net_worth := db.net_worth ++
    [⟨j.net_worth.savings_accounts, j.net_worth.investment_account, j.net_worth.other_assets⟩]
  income := db.income ++
    [⟨j.income.user_salary, j.income.partner_salary, j.income.salary_months⟩]
  fixed_expenses := db.fixed_expenses ++ j.fixed_expenses
  variable_expenses := db.variable_expenses ++ j.variable_expenses
  savings_contributions := db.savings_contributions ++ j.savings_contributions
  savings_recurring_monthly := db.savings_recurring_monthly ++ j.savings_recurring_monthly
  investment_contributions := db.investment_contributions ++ j.investment_contributions
  investment_recurring_monthly :=
    db.investment_recurring_monthly ++ j.investment_recurring_monthly
  transactions := db.transactions ++ j.transactions

/-- `migrate_from_json`: returns `false` immediately when the legacy file
is absent; returns `false` without touching anything when the `income`
table already has a row; otherwise inserts every legacy field, renames the
legacy file to `.backup` (`os.rename` replaces any existing backup) and
returns `true`. -/
def migrate_from_json (s : SysState) : Bool × SysState :=
  match s.json_file with
  | none => (false, s)
  | some j =>
      if 0 < s.db.income.length then (false, s)
      else
        (true, { json_file := none, backup_file := some j, db := insertLegacyDoc j s.db })

/-! ## Mutation handlers (`app.py`) -/

/-- The value-equality correlation the delete-variable-expense handler uses
(`app.py` lines 358-362): transaction type `"expense"`, category
`"variable"`, and name and date equal to the deleted expense's. -/
def transactionMatchesExpense (e : VariableExpense) (t : Transaction) : Bool :=
  t.type == "expense" && t.category == some "variable"
    && t.name == some e.name && t.date == e.date

/-- The `for ... pop ... break` loop of the delete handler: remove the
first transaction matching the deleted expense, leave the rest alone. -/
def removeFirstMatching (e : VariableExpense) : List Transaction → List Transaction
  | [] => []
  | t :: ts =>
      if transactionMatchesExpense e t then ts else t :: removeFirstMatching e ts

/-- The delete-variable-expense handler (`app.py` lines 354-365): pop the
expense at `idx`, then remove the first matching transaction. A Python
index out of range would raise; the UI only offers indices of existing
rows, so the out-of-range case is modelled as the identity. -/
def deleteVariableExpense (d : FinancialDocument) (idx : ℕ) : FinancialDocument :=
  match d.variable_expenses[idx]? with
  | none => d
  | some e =>
      { d with
        variable_expenses := d.variable_expenses.eraseIdx idx,
        transactions := removeFirstMatching e d.transactions }

/-- The `for acc in savings_accounts ... break` loop of the one-time
savings contribution handler: add `amt` to the balance of the first account
whose name equals the selected name. -/
def addBalanceFirst (accName : String) (amt : ℚ) :
    List SavingsAccount → List SavingsAccount
  | [] => []
  | a :: rest =>
      if a.name == accName then { a with balance := a.balance + amt } :: rest
      else a :: addBalanceFirst accName amt rest

/-- Python truthiness of an optional string: `None` and the empty string
are falsy. -/
def pyTruthy : Option String → Bool
  | none => false
  | some s => s != ""

/-- The add-one-time-savings-contribution handler (`app.py` lines 624-648).
`selectedAccount` is the selectbox value (`None` when no account exists).
Each of the handler's three `if selected_account:` truthiness guards is
kept: the contribution record carries the `account` key only when the
selection is truthy, the balance of the first name-matching account is
incremented only when the selection is truthy, and the transaction logs
the selected name when truthy and `"General"` otherwise. -/
def addOneTimeSavingsContribution (d : FinancialDocument) (selectedAccount : Option String)
    (amt : ℚ) (date : String) : FinancialDocument :=
  { d with
    savings_contributions := d.savings_contributions ++
      [⟨amt, date, if pyTruthy selectedAccount then selectedAccount else none⟩],
    net_worth := { d.net_worth with
      savings_accounts :=
        if pyTruthy selectedAccount then
          addBalanceFirst (selectedAccount.getD "") amt d.net_worth.savings_accounts
        else d.net_worth.savings_accounts },
    transactions := d.transactions ++
      [⟨"savings", none, none, amt, date,
        some (if pyTruthy selectedAccount then selectedAccount.getD "" else "General")⟩] }

/-- The add-one-time-investment-contribution handler (`app.py` lines
766-778): append the contribution record, add the amount to
`net_worth["investment_account"]`, append an `"investment"` transaction
(which carries no category, name or account key). -/
def addOneTimeInvestmentContribution (d : FinancialDocument)
    (amt : ℚ) (date : String) : FinancialDocument :=
  { d with
    investment_contributions := d.investment_contributions ++ [⟨amt, date⟩],
    net_worth := { d.net_worth with
      investment_account := d.net_worth.investment_account + amt },
    transactions := d.transactions ++ [⟨"investment", none, none, amt, date, none⟩] }

/-! ## Concrete documents and states used as witnesses and counterexamples -/

/-- The zero-valued default skeleton (`load_data`'s initial dictionary and
the reset handler of the Settings page). -/
def defaultSkeleton : FinancialDocument :=
  ⟨⟨[], 0, 0⟩, ⟨0, 0, 14⟩, [], [], [], [], [], [], []⟩

/-- The worked surplus example of the spec: income {user 2000, partner
1000}, expenses {fixed 500, variable 200}, recurring savings 300,
recurring investment 100. -/
def exD2 : FinancialDocument :=
  { defaultSkeleton with
    income := ⟨2000, 1000, 14⟩,
    fixed_expenses := [⟨"Rent", 500⟩],
    variable_expenses := [⟨"Groceries", 200, "2024-03-05"⟩],
    savings_recurring_monthly := [⟨300, some "Main"⟩],
    investment_recurring_monthly := [⟨100⟩] }

/-- A well-formed document exercising every table for the round-trip
witness: no optional string is the empty string and `salary_months` is 12. -/
def exD1 : FinancialDocument :=
  { net_worth := ⟨[⟨"Main", 1500⟩, ⟨"Side", 200⟩], 750, 30⟩,
    income := ⟨2000, 1000, 12⟩,
    fixed_expenses := [⟨"Rent", 500⟩],
    variable_expenses := [⟨"Groceries", 200, "2024-03-05"⟩],
    savings_contributions := [⟨50, "2024-01-01", some "Main"⟩, ⟨20, "2024-02-01", none⟩],
    savings_recurring_monthly := [⟨300, some "Main"⟩, ⟨10, none⟩],
    investment_contributions := [⟨40, "2024-01-15"⟩],
    investment_recurring_monthly := [⟨100⟩],
    transactions :=
      [⟨"expense", some "variable", some "Groceries", -200, "2024-03-05", none⟩,
       ⟨"savings", none, none, 50, "2024-01-01", some "Main"⟩,
       ⟨"investment", none, none, 40, "2024-01-15", none⟩] }

/-- A document whose one savings contribution carries the empty string as
its `account` value: saving then loading drops the key. -/
def exD1bad : FinancialDocument :=
  { defaultSkeleton with
    income := ⟨1000, 0, 12⟩,
    savings_contributions := [⟨50, "2024-01-01", some ""⟩] }

/-- A system state whose store already holds an income row while the
legacy JSON file is still present. -/
def exS4 : SysState :=
  { json_file := some exD1,
    backup_file := none,
    db := save_data defaultSkeleton }

/-- The variable expense of the deletion examples. -/
def exE5 : VariableExpense := ⟨"Coffee", 3, "2024-05-01"⟩

/-- A document holding a variable expense but no transaction matching it:
the delete handler then removes no transaction at all. -/
def exD5bad : FinancialDocument :=
  { defaultSkeleton with
    variable_expenses := [exE5],
    transactions := [⟨"savings", none, none, 50, "2024-05-01", some "Main"⟩] }

/-- A document holding a variable expense and two transactions matching it
(same type, category, name and date), for the first-match deletion
witness. -/
def exD5 : FinancialDocument :=
  { defaultSkeleton with
    variable_expenses := [exE5],
    transactions :=
      [⟨"expense", some "variable", some "Coffee", -3, "2024-05-01", none⟩,
       ⟨"expense", some "variable", some "Coffee", -3, "2024-05-01", none⟩] }

/-- A document with two same-named savings accounts, for the first-match
contribution-routing witness. -/
def exD6 : FinancialDocument :=
  { defaultSkeleton with
    net_worth := ⟨[⟨"Main", 100⟩, ⟨"Main", 7⟩, ⟨"Side", 20⟩], 60, 5⟩ }

/-- A document whose only savings account is named the empty string (such
a name is reachable: the account-update handler at `app.py` line 489
assigns the new name without a non-emptiness guard, and migration accepts
whatever the legacy file holds). Selecting this account makes
`selected_account` the falsy `""`. -/
def exD6bad : FinancialDocument :=
  { defaultSkeleton with net_worth := ⟨[⟨"", 100⟩], 0, 0⟩ }

/-- A document with income and balances but no recurring contributions and
no expenses, for the plain-projection witness. -/
def exD8 : FinancialDocument :=
  { defaultSkeleton with
    net_worth := ⟨[⟨"Main", 100⟩], 50, 25⟩,
    income := ⟨2000, 1000, 12⟩ }

/-- A document whose stored `salary_months` is 0; loading turns it into 14. -/
def exD10 : FinancialDocument :=
  { defaultSkeleton with income := ⟨1000, 0, 0⟩ }

attribute [ext] FinancialDocument

/-! ## Helper lemmas -/

theorem pyOrZero_eq (x : ℚ) : pyOrZero x = x := by
  unfold pyOrZero
  split <;> simp_all

theorem pyOrFourteen_of_ne (n : ℤ) (h : n ≠ 0) : pyOrFourteen n = n := by
  simp [pyOrFourteen, h]

theorem pyTruthyStr_of_ne (o : Option String) (h : o ≠ some "") : pyTruthyStr o = o := by
  cases o with
  | none => rfl
  | some s =>
      have hs : s ≠ "" := fun hs => h (by rw [hs])
      simp [pyTruthyStr, hs]

theorem pyTruthyStr_eq_ite (o : Option String) :
    pyTruthyStr o = if o = some "" then none else o := by
  cases o with
  | none => simp [pyTruthyStr]
  | some s => by_cases h : s = "" <;> simp [pyTruthyStr, h]

theorem map_load_savings_contributions (l : List SavingsContribution)
    (h : ∀ c ∈ l, c.account ≠ some "") :
    l.map (fun c => (⟨c.amount, c.date, pyTruthyStr c.account⟩ : SavingsContribution)) = l := by
  induction l with
  | nil => rfl
  | cons c cs ih =>
      simp only [List.map_cons, pyTruthyStr_of_ne _ (h c (List.mem_cons_self c cs))]
      rw [ih fun x hx => h x (List.mem_cons_of_mem c hx)]

theorem map_load_savings_recurring (l : List SavingsRecurring)
    (h : ∀ c ∈ l, c.account ≠ some "") :
    l.map (fun c => (⟨c.amount, pyTruthyStr c.account⟩ : SavingsRecurring)) = l := by
  induction l with
  | nil => rfl
  | cons c cs ih =>
      simp only [List.map_cons, pyTruthyStr_of_ne _ (h c (List.mem_cons_self c cs))]
      rw [ih fun x hx => h x (List.mem_cons_of_mem c hx)]

theorem map_load_transactions (l : List Transaction)
    (h : ∀ t ∈ l, t.category ≠ some "" ∧ t.name ≠ some "" ∧ t.account ≠ some "") :
    l.map (fun t => (⟨t.type, pyTruthyStr t.category, pyTruthyStr t.name, t.amount, t.date,
        pyTruthyStr t.account⟩ : Transaction)) = l := by
  induction l with
  | nil => rfl
  | cons t ts ih =>
      rcases h t (List.mem_cons_self t ts) with ⟨h1, h2, h3⟩
      simp only [List.map_cons, pyTruthyStr_of_ne _ h1, pyTruthyStr_of_ne _ h2,
        pyTruthyStr_of_ne _ h3]
      rw [ih fun u hu => h u (List.mem_cons_of_mem t hu)]

theorem removeFirstMatching_of_no_match (e : VariableExpense) (l : List Transaction)
    (h : ∀ t ∈ l, ¬ transactionMatchesExpense e t = true) :
    removeFirstMatching e l = l := by
  induction l with
  | nil => rfl
  | cons t ts ih =>
      simp only [removeFirstMatching]
      rw [if_neg (h t (List.mem_cons_self t ts)),
        ih fun u hu => h u (List.mem_cons_of_mem t hu)]

theorem removeFirstMatching_of_match (e : VariableExpense) (l : List Transaction)
    (h : ∃ t ∈ l, transactionMatchesExpense e t = true) :
    ∃ l₁ t l₂, l = l₁ ++ t :: l₂
      ∧ transactionMatchesExpense e t = true
      ∧ (∀ u ∈ l₁, ¬ transactionMatchesExpense e u = true)
      ∧ removeFirstMatching e l = l₁ ++ l₂ := by
  induction l with
  | nil =>
      rcases h with ⟨t, ht, _⟩
      cases ht
  | cons t ts ih =>
      by_cases hm : transactionMatchesExpense e t = true
      · exact ⟨[], t, ts, rfl, hm, by simp, by simp [removeFirstMatching, hm]⟩
      · have hex : ∃ u ∈ ts, transactionMatchesExpense e u = true := by
          rcases h with ⟨u, hu, hmu⟩
          rcases List.mem_cons.1 hu with h1 | h2
          · exact absurd (by rw [← h1]; exact hmu) hm
          · exact ⟨u, h2, hmu⟩
        rcases ih hex with ⟨l₁, u, l₂, heq, hmu, hnone, hrm⟩
        refine ⟨t :: l₁, u, l₂, by rw [heq]; rfl, hmu, ?_, ?_⟩
        · intro v hv
          rcases List.mem_cons.1 hv with h1 | h2
          · rw [h1]; exact hm
          · exact hnone v h2
        · simp [removeFirstMatching, hm, hrm]

theorem addBalanceFirst_of_match (accName : String) (amt : ℚ)
    (l : List SavingsAccount) (h : ∃ a ∈ l, a.name = accName) :
    ∃ l₁ a l₂, l = l₁ ++ a :: l₂ ∧ a.name = accName
      ∧ (∀ b ∈ l₁, b.name ≠ accName)
      ∧ addBalanceFirst accName amt l = l₁ ++ { a with balance := a.balance + amt } :: l₂ := by
  induction l with
  | nil =>
      rcases h with ⟨a, ha, _⟩
      cases ha
  | cons a rest ih =>
      by_cases hm : a.name = accName
      · exact ⟨[], a, rest, rfl, hm, by simp, by simp [addBalanceFirst, hm]⟩
      · have hex : ∃ b ∈ rest, b.name = accName := by
          rcases h with ⟨b, hb, hmb⟩
          rcases List.mem_cons.1 hb with h1 | h2
          · exact absurd (by rw [← h1]; exact hmb) hm
          · exact ⟨b, h2, hmb⟩
        rcases ih hex with ⟨l₁, b, l₂, heq, hmb, hnone, hab⟩
        refine ⟨a :: l₁, b, l₂, by rw [heq]; rfl, hmb, ?_, ?_⟩
        · intro v hv
          rcases List.mem_cons.1 hv with h1 | h2
          · rw [h1]; exact hm
          · exact hnone v h2
        · simp [addBalanceFirst, hm, hab]

/-! ## Claims -/

/-- C2: for every document the dashboard's monthly surplus is total income
minus total expenses minus the recurring monthly savings sum minus the
recurring monthly investment sum, the simulator's `monthly_surplus` field
agrees with it, and on the spec's worked example the surplus is 1900. -/
theorem monthly_surplus_formula :
    (∀ (d : FinancialDocument) (years : ℕ),
        monthly_surplus d
          = calculate_total_income d - calculate_total_expenses d
            - sumRecurringSavings d.savings_recurring_monthly
            - sumRecurringInvestment d.investment_recurring_monthly
        ∧ (simulate_year_end_networth d years).monthly_surplus = monthly_surplus d)
    ∧ monthly_surplus exD2 = 1900 :=
  ⟨fun _ _ => ⟨rfl, rfl⟩, by
    norm_num [monthly_surplus, calculate_total_income, calculate_total_expenses,
      sumRecurringSavings, sumRecurringInvestment, exD2, defaultSkeleton]⟩

/-- C7: two runs differing only in `income.salary_months` (12 versus 14)
have the same monthly surplus and the same simulation result for every
number of years; `salary_months` enters only `calculate_yearly_income`,
where it is the multiplier on total monthly income. -/
theorem salary_months_noninterference (d : FinancialDocument) (years : ℕ) (m : ℤ) :
    monthly_surplus (setSalaryMonths d 12) = monthly_surplus (setSalaryMonths d 14)
    ∧ simulate_year_end_networth (setSalaryMonths d 12) years
        = simulate_year_end_networth (setSalaryMonths d 14) years
    ∧ calculate_yearly_income (setSalaryMonths d m) = calculate_total_income d * (m : ℚ) :=
  ⟨rfl, rfl, rfl⟩

/-- C9: recurring contributions cancel out of the projection: for every
document and years value, projected minus current net worth equals
(monthly income minus monthly expenses) times 12 times years. -/
theorem projection_growth_formula (d : FinancialDocument) (years : ℕ) :
    (simulate_year_end_networth d years).projected_networth
        - (simulate_year_end_networth d years).current_networth
      = ((simulate_year_end_networth d years).monthly_income
          - (simulate_year_end_networth d years).monthly_expenses) * 12 * (years : ℚ) := by
  simp only [simulate_year_end_networth, CONTRIBUTION_MONTHS]
  ring

/-- C3: calling `migrate_from_json` twice in a row performs the migration
at most once: the second call returns `false` and leaves the state of the
first call unchanged. -/
theorem migrate_from_json_idempotent (s : SysState) :
    (migrate_from_json (migrate_from_json s).2).1 = false
    ∧ (migrate_from_json (migrate_from_json s).2).2 = (migrate_from_json s).2 := by
  rcases s with ⟨jf, bf, db⟩
  cases jf with
  | none => exact ⟨rfl, rfl⟩
  | some j =>
      by_cases h : 0 < db.income.length
      · simp [migrate_from_json, h]
      · simp [migrate_from_json, h]

/-- C4: when the relational store already holds at least one income row,
`migrate_from_json` returns `false` and changes nothing: no rows are
inserted into any table and the legacy file keeps its place. -/
theorem migrate_from_json_noop_of_income (s : SysState)
    (h : 0 < s.db.income.length) :
    migrate_from_json s = (false, s) := by
  rcases s with ⟨jf, bf, db⟩
  cases jf with
  | none => rfl
  | some j => simp [migrate_from_json, h]

theorem migrate_from_json_noop_of_income_witness :
    0 < exS4.db.income.length ∧ migrate_from_json exS4 = (false, exS4) :=
  ⟨by decide, migrate_from_json_noop_of_income exS4 (by decide)⟩

/-- C1 fails as stated: a document whose savings contribution carries the
empty string as its `account` value is not reproduced by loading after
saving (the truthiness check of `load_data` drops the key). -/
theorem load_save_roundtrip_counterexample :
    load_data (save_data exD1bad) ≠ exD1bad := by decide

/-- C1 (amended): for every document whose optional string fields (a
savings contribution's or recurring contribution's account, a
transaction's category, name or account) are each absent or non-empty and
whose `income.salary_months` is nonzero, loading after saving reproduces
the document exactly, list order included. -/
theorem load_save_roundtrip (d : FinancialDocument)
    (h1 : ∀ c ∈ d.savings_contributions, c.account ≠ some "")
    (h2 : ∀ c ∈ d.savings_recurring_monthly, c.account ≠ some "")
    (h3 : ∀ t ∈ d.transactions, t.category ≠ some "" ∧ t.name ≠ some "" ∧ t.account ≠ some "")
    (h4 : d.income.salary_months ≠ 0) :
    load_data (save_data d) = d := by
  refine FinancialDocument.ext ?_ ?_ rfl rfl ?_ ?_ rfl rfl ?_
  · show NetWorth.mk d.net_worth.savings_accounts (pyOrZero d.net_worth.investment_account)
      (pyOrZero d.net_worth.other_assets) = d.net_worth
    rw [pyOrZero_eq, pyOrZero_eq]
  · show Income.mk (pyOrZero d.income.user_salary) (pyOrZero d.income.partner_salary)
      (pyOrFourteen d.income.salary_months) = d.income
    rw [pyOrZero_eq, pyOrZero_eq, pyOrFourteen_of_ne _ h4]
  · exact map_load_savings_contributions _ h1
  · exact map_load_savings_recurring _ h2
  · exact map_load_transactions _ h3

/-- The round trip evaluated on a document populating every table. -/
theorem load_save_roundtrip_witness : load_data (save_data exD1) = exD1 :=
  load_save_roundtrip exD1 (by decide) (by decide) (by decide) (by decide)

/-- C5 fails as stated: a document holding a variable expense but no
matching transaction; the delete handler removes no transaction (the
nonempty log is unchanged), not exactly one. -/
theorem delete_variable_expense_counterexample :
    0 < exD5bad.variable_expenses.length
    ∧ (deleteVariableExpense exD5bad 0).transactions = exD5bad.transactions
    ∧ (deleteVariableExpense exD5bad 0).transactions.length
        ≠ exD5bad.transactions.length - 1 := by decide

/-- C5 (amended): deleting the variable expense at a valid index removes
exactly the first transaction (in list order) with type `"expense"`,
category `"variable"` and the deleted expense's name and date, and never
more than one even when several match; when no transaction matches, the
log is unchanged. -/
theorem delete_variable_expense_first_match (d : FinancialDocument) (idx : ℕ)
    (e : VariableExpense) (hidx : d.variable_expenses[idx]? = some e) :
    ((∃ t ∈ d.transactions, transactionMatchesExpense e t = true) →
        ∃ l₁ t l₂, d.transactions = l₁ ++ t :: l₂
          ∧ transactionMatchesExpense e t = true
          ∧ (∀ u ∈ l₁, ¬ transactionMatchesExpense e u = true)
          ∧ (deleteVariableExpense d idx).transactions = l₁ ++ l₂)
    ∧ ((∀ t ∈ d.transactions, ¬ transactionMatchesExpense e t = true) →
        (deleteVariableExpense d idx).transactions = d.transactions) := by
  constructor
  · intro hex
    rcases removeFirstMatching_of_match e d.transactions hex with ⟨l₁, t, l₂, heq, hm, hn, hrm⟩
    refine ⟨l₁, t, l₂, heq, hm, hn, ?_⟩
    simp [deleteVariableExpense, hidx, hrm]
  · intro hnone
    simp [deleteVariableExpense, hidx,
      removeFirstMatching_of_no_match e d.transactions hnone]

/-- The first-match deletion evaluated on a document with two matching
transactions: exactly one of them is removed. -/
theorem delete_variable_expense_first_match_witness :
    ∃ l₁ t l₂, exD5.transactions = l₁ ++ t :: l₂
      ∧ transactionMatchesExpense exE5 t = true
      ∧ (∀ u ∈ l₁, ¬ transactionMatchesExpense exE5 u = true)
      ∧ (deleteVariableExpense exD5 0).transactions = l₁ ++ l₂ :=
  (delete_variable_expense_first_match exD5 0 exE5 rfl).1
    ⟨⟨"expense", some "variable", some "Coffee", -3, "2024-05-01", none⟩, by decide, by decide⟩

/-- C6 fails as stated: when the selected account name is the empty
string (and a name-matching account exists), the handler's
`if selected_account:` truthiness guards skip the balance increment, omit
the `account` key from the appended contribution record, and log the
transaction's account as `"General"`. -/
theorem add_one_time_contribution_counterexample :
    exD6bad.net_worth.savings_accounts = [⟨"", 100⟩]
    ∧ (addOneTimeSavingsContribution exD6bad (some "") 50 "2024-01-02").net_worth.savings_accounts
        = exD6bad.net_worth.savings_accounts
    ∧ (addOneTimeSavingsContribution exD6bad (some "") 50 "2024-01-02").savings_contributions
        = exD6bad.savings_contributions ++ [⟨50, "2024-01-02", none⟩]
    ∧ (addOneTimeSavingsContribution exD6bad (some "") 50 "2024-01-02").transactions
        = exD6bad.transactions
            ++ [⟨"savings", none, none, 50, "2024-01-02", some "General"⟩] := by
  decide

/-- C6 (amended): adding a one-time savings contribution whose selected
account name is non-empty (so the selection is truthy) appends the
contribution record carrying the account, appends one `"savings"`
transaction carrying the account, and adds the amount to the balance of
exactly the first account of that name, leaving every other account and
every other document field unchanged; adding a one-time investment
contribution adds the amount to `net_worth.investment_account`, appends
the contribution record and appends an `"investment"` transaction,
leaving the rest unchanged. (With an empty-string selected name the
truthiness guards instead take the branch of the counterexample.) -/
theorem add_one_time_contribution_effects (d : FinancialDocument)
    (accName : String) (amt : ℚ) (date : String)
    (h : ∃ a ∈ d.net_worth.savings_accounts, a.name = accName)
    (hne : accName ≠ "") :
    (∃ l₁ a l₂, d.net_worth.savings_accounts = l₁ ++ a :: l₂ ∧ a.name = accName
      ∧ (∀ b ∈ l₁, b.name ≠ accName)
      ∧ (addOneTimeSavingsContribution d (some accName) amt date).net_worth.savings_accounts
          = l₁ ++ { a with balance := a.balance + amt } :: l₂)
    ∧ (addOneTimeSavingsContribution d (some accName) amt date).savings_contributions
        = d.savings_contributions ++ [⟨amt, date, some accName⟩]
    ∧ (addOneTimeSavingsContribution d (some accName) amt date).transactions
        = d.transactions ++ [⟨"savings", none, none, amt, date, some accName⟩]
    ∧ (addOneTimeSavingsContribution d (some accName) amt date).net_worth.investment_account
        = d.net_worth.investment_account
    ∧ (addOneTimeSavingsContribution d (some accName) amt date).net_worth.other_assets
        = d.net_worth.other_assets
    ∧ (addOneTimeSavingsContribution d (some accName) amt date).income = d.income
    ∧ (addOneTimeSavingsContribution d (some accName) amt date).fixed_expenses
        = d.fixed_expenses
    ∧ (addOneTimeSavingsContribution d (some accName) amt date).variable_expenses
        = d.variable_expenses
    ∧ (addOneTimeSavingsContribution d (some accName) amt date).savings_recurring_monthly
        = d.savings_recurring_monthly
    ∧ (addOneTimeSavingsContribution d (some accName) amt date).investment_contributions
        = d.investment_contributions
    ∧ (addOneTimeSavingsContribution d (some accName) amt date).investment_recurring_monthly
        = d.investment_recurring_monthly
    ∧ (addOneTimeInvestmentContribution d amt date).net_worth.investment_account
        = d.net_worth.investment_account + amt
    ∧ (addOneTimeInvestmentContribution d amt date).investment_contributions
        = d.investment_contributions ++ [⟨amt, date⟩]
    ∧ (addOneTimeInvestmentContribution d amt date).transactions
        = d.transactions ++ [⟨"investment", none, none, amt, date, none⟩]
    ∧ (addOneTimeInvestmentContribution d amt date).net_worth.savings_accounts
        = d.net_worth.savings_accounts
    ∧ (addOneTimeInvestmentContribution d amt date).net_worth.other_assets
        = d.net_worth.other_assets
    ∧ (addOneTimeInvestmentContribution d amt date).income = d.income := by
  have ht : pyTruthy (some accName) = true := by
    simp [pyTruthy, hne]
  refine ⟨?_, ?_, ?_, rfl, rfl, rfl, rfl, rfl, rfl, rfl, rfl, rfl, rfl, rfl, rfl, rfl, rfl⟩
  · rcases addBalanceFirst_of_match accName amt d.net_worth.savings_accounts h with
      ⟨l₁, a, l₂, heq, hname, hnone, hab⟩
    refine ⟨l₁, a, l₂, heq, hname, hnone, ?_⟩
    simp [addOneTimeSavingsContribution, ht, hab]
  · simp [addOneTimeSavingsContribution, ht]
  · simp [addOneTimeSavingsContribution, ht]

/-- The contribution handler evaluated on a document with two accounts
named `"Main"`: the contribution record is appended carrying the account
(routing picked the first account, as the main theorem's decomposition
shows). -/
theorem add_one_time_contribution_effects_witness :
    (addOneTimeSavingsContribution exD6 (some "Main") 50 "2024-01-02").savings_contributions
      = exD6.savings_contributions ++ [⟨50, "2024-01-02", some "Main"⟩] :=
  (add_one_time_contribution_effects exD6 "Main" 50 "2024-01-02"
    ⟨⟨"Main", 100⟩, by decide, rfl⟩ (by decide)).2.1

/-- C8: with no recurring contributions and no expenses of either kind,
the projected net worth is the current net worth plus total income times
12 times the number of years. -/
theorem projection_without_recurring_or_expenses (d : FinancialDocument) (years : ℕ)
    (h1 : d.savings_recurring_monthly = []) (h2 : d.investment_recurring_monthly = [])
    (h3 : d.fixed_expenses = []) (h4 : d.variable_expenses = []) :
    (simulate_year_end_networth d years).projected_networth
      = calculate_current_net_worth d + calculate_total_income d * 12 * (years : ℚ) := by
  simp only [simulate_year_end_networth, calculate_total_expenses, sumRecurringSavings,
    sumRecurringInvestment, CONTRIBUTION_MONTHS, h1, h2, h3, h4, List.map_nil, List.sum_nil]
  ring

/-- The plain projection evaluated on a document with balances and income
but no recurring contributions and no expenses, over two years. -/
theorem projection_without_recurring_or_expenses_witness :
    (simulate_year_end_networth exD8 2).projected_networth
      = calculate_current_net_worth exD8 + calculate_total_income exD8 * 12 * ((2 : ℕ) : ℚ) :=
  projection_without_recurring_or_expenses exD8 2 rfl rfl rfl rfl

/-- C10: after a save, loading returns each savings contribution,
recurring savings contribution and transaction with any empty-string
optional field (`account`, `category`, `name`) absent entirely and every
other field unchanged, and a stored `income.salary_months` of 0 is loaded
as 14. -/
theorem load_data_truthiness (d : FinancialDocument) :
    (load_data (save_data d)).savings_contributions
        = d.savings_contributions.map
            (fun c => { c with account := if c.account = some "" then none else c.account })
    ∧ (load_data (save_data d)).savings_recurring_monthly
        = d.savings_recurring_monthly.map
            (fun c => { c with account := if c.account = some "" then none else c.account })
    ∧ (load_data (save_data d)).transactions
        = d.transactions.map
            (fun t => { t with
              category := if t.category = some "" then none else t.category,
              name := if t.name = some "" then none else t.name,
              account := if t.account = some "" then none else t.account })
    ∧ (d.income.salary_months = 0 → (load_data (save_data d)).income.salary_months = 14) := by
  refine ⟨?_, ?_, ?_, ?_⟩
  · show d.savings_contributions.map
        (fun c => (⟨c.amount, c.date, pyTruthyStr c.account⟩ : SavingsContribution)) = _
    simp only [pyTruthyStr_eq_ite]
  · show d.savings_recurring_monthly.map
        (fun c => (⟨c.amount, pyTruthyStr c.account⟩ : SavingsRecurring)) = _
    simp only [pyTruthyStr_eq_ite]
  · show d.transactions.map
        (fun t => (⟨t.type, pyTruthyStr t.category, pyTruthyStr t.name, t.amount, t.date,
          pyTruthyStr t.account⟩ : Transaction)) = _
    simp only [pyTruthyStr_eq_ite]
  · intro h0
    show pyOrFourteen d.income.salary_months = 14
    rw [h0]
    rfl

/-- The truthiness coercion evaluated on a document stored with
`salary_months` 0. -/
theorem load_data_truthiness_witness :
    exD10.income.salary_months = 0
    ∧ (load_data (save_data exD10)).income.salary_months = 14 :=
  ⟨rfl, (load_data_truthiness exD10).2.2.2 rfl⟩
